import Mathlib

/-!
# Verification of the completion-client adapter (`openai_handler.py`)

Shallow embedding of `src/backend/src/openai_handler.py`.  The adapter's
external collaborators are passed as explicit parameters:

* the secrets provider (`SecretsHandler.get_openai_key`, not part of this
  repository) is a value of type `Except PyError String`;
* the remote completion service (`client.chat.completions.create`) is a
  function `Request → Response`;
* the Python standard-library JSON parser (`json.loads`) is a function
  `String → Except PyError Json`.

Python runtime values that a JSON parse can produce are modelled by the
`Json` inductive (numbers as integers — no claim involves a float), and
Python exceptions by the `PyError` inductive.  The dynamic semantics of
the Python operations the source applies to a parsed value — truthiness
of an optional string, `"genres" in content_json`, and
`content_json['genres']` — are embedded by `pyContains` and `pySubscript`
below, including the `TypeError`s they raise on non-container values.
The process-wide lazy singleton `_client_instance` is threaded as an
explicit `Option OpenAI` state.
-/

/-- A Python value produced by `json.loads`: `None`, `bool`, `int`,
`str`, `list`, or `dict` (JSON object keys are always strings). -/
inductive Json where
  | null : Json
  | bool : Bool → Json
  | num : Int → Json
  | str : String → Json
  | arr : List Json → Json
  | obj : List (String × Json) → Json
deriving Repr

/-- A Python exception, identified by class and message.  `valueError` is
the class the adapter itself raises; `configurationError` models the
secrets provider's failure mode; the rest are raised by the Python
runtime or by collaborators. -/
inductive PyError where
  | valueError : String → PyError
  | typeError : String → PyError
  | indexError : String → PyError
  | keyError : String → PyError
  | configurationError : String → PyError
  | otherError : String → String → PyError
deriving DecidableEq, Repr

-- `str()` / `repr()` of the Python value, as it appears interpolated in
-- the adapter's f-string (Python string escaping inside `repr` of a
-- string is not modelled; no claim exercises it).
mutual

def pyRepr : Json → String
  | .null => "None"
  | .bool true => "True"
  | .bool false => "False"
  | .num n => toString n
  | .str s => "\x27" ++ s ++ "\x27"
  | .arr xs => "[" ++ pyReprList xs ++ "]"
  | .obj kvs => "\x7b" ++ pyReprFields kvs ++ "\x7d"

def pyReprList : List Json → String
  | [] => ""
  | [x] => pyRepr x
  | x :: xs => pyRepr x ++ ", " ++ pyReprList xs

def pyReprFields : List (String × Json) → String
  | [] => ""
  | [(k, v)] => "\x27" ++ k ++ "\x27: " ++ pyRepr v
  | (k, v) :: kvs => "\x27" ++ k ++ "\x27: " ++ pyRepr v ++ ", " ++ pyReprFields kvs

end

/-- Substring test: Python `pat in s` for strings. -/
def strContains (s pat : String) : Bool :=
  pat = "" || (s.splitOn pat).length > 1

/-- Python `==` between a JSON-derived value and a string: only another
string can compare equal. -/
def pyEqStr (j : Json) (s : String) : Bool :=
  match j with
  | .str t => t = s
  | _ => false

/-- First-match association lookup (a Python dict holds each key once, so
first match and last match agree on any value representing a dict). -/
def lookupKey (kvs : List (String × Json)) (k : String) : Option Json :=
  match kvs with
  | [] => none
  | (k', v) :: rest => if k' = k then some v else lookupKey rest k

/-- Python `needle in j` for a value produced by `json.loads`: key test
on a dict, element test on a list, substring test on a string, and a
`TypeError` on the non-container values. -/
def pyContains (needle : String) (j : Json) : Except PyError Bool :=
  match j with
  | .obj kvs => .ok (kvs.any (fun kv => kv.1 = needle))
  | .arr xs => .ok (xs.any (fun x => pyEqStr x needle))
  | .str s => .ok (strContains s needle)
  | .num _ => .error (.typeError "argument of type \x27int\x27 is not iterable")
  | .bool _ => .error (.typeError "argument of type \x27bool\x27 is not iterable")
  | .null => .error (.typeError "argument of type \x27NoneType\x27 is not iterable")

/-- Python `j[k]` for a string key `k` on a value produced by
`json.loads`: dict lookup (a `KeyError` when absent), and a `TypeError`
on every other value. -/
def pySubscript (j : Json) (k : String) : Except PyError Json :=
  match j with
  | .obj kvs =>
      match lookupKey kvs k with
      | some v => .ok v
      | none => .error (.keyError k)
  | .arr _ => .error (.typeError "list indices must be integers or slices, not str")
  | .str _ => .error (.typeError "string indices must be integers")
  | .num _ => .error (.typeError "\x27int\x27 object is not subscriptable")
  | .bool _ => .error (.typeError "\x27bool\x27 object is not subscriptable")
  | .null => .error (.typeError "\x27NoneType\x27 object is not subscriptable")

/-- The remote client handle, keyed by the API credential
(`OpenAI(api_key=...)`). -/
structure OpenAI where
  api_key : String
deriving DecidableEq, Repr

/-- A message of the outbound completion request. -/
structure ReqMessage where
  role : String
  content : String
deriving DecidableEq, Repr

/-- The outbound completion request built by `get_response`. -/
structure Request where
  model : String
  response_format : String
  seed : Int
  messages : List ReqMessage
deriving DecidableEq, Repr

/-- A message of the remote reply; its textual content may be absent. -/
structure RespMessage where
  content : Option String
deriving DecidableEq, Repr

/-- One choice of the remote reply. -/
structure Choice where
  message : RespMessage
deriving DecidableEq, Repr

/-- The remote reply: a list of choices (the adapter reads index 0). -/
structure Response where
  choices : List Choice
deriving DecidableEq, Repr

namespace OpenAIHandler

/-- `OpenAIHandler.GPT_MODEL`. -/
def GPT_MODEL : String := "gpt-3.5-turbo"

/-- `OpenAIHandler._initialize_client`: constructs the client from the
secrets provider's key and memoizes it in `_client_instance`; a secrets
failure propagates and leaves the state unset.  Returns the result
paired with the new `_client_instance` state. -/
def _initialize_client (secret_key : Except PyError String) :
    Except PyError OpenAI × Option OpenAI :=
  match secret_key with
  | .error e => (.error e, none)
  | .ok k => (.ok ⟨k⟩, some ⟨k⟩)

/-- `OpenAIHandler.get_client`: returns the memoized `_client_instance`
when set (an `OpenAI` object is truthy), otherwise initializes it. -/
def get_client (secret_key : Except PyError String) (inst : Option OpenAI) :
    Except PyError OpenAI × Option OpenAI :=
  match inst with
  | some c => (.ok c, some c)
  | none => _initialize_client secret_key

/-- The completion request `get_response` hands to
`client.chat.completions.create`: fixed model, JSON-object response
format, fixed seed 69, and exactly the system-prompt and user messages. -/
def requestOf (prompt sanitized_input : String) : Request :=
  { model := GPT_MODEL
    response_format := "json_object"
    seed := 69
    messages := [⟨"system", prompt⟩, ⟨"user", sanitized_input⟩] }

/-- Message of the `ValueError` raised when the reply has no content. -/
def emptyReplyMsg : String :=
  "Something went wrong retrieving a response from GPT. " ++
    "No response was provided."

/-- Message of the `ValueError` raised when the content is not JSON. -/
def malformedReplyMsg : String :=
  "Something went wrong retrieving a response from GPT. " ++
    "The provided response could not be parsed into JSON."

/-- Message of the `ValueError` raised when the parsed JSON has no
`genres` key; it interpolates the parsed value. -/
def missingFieldMsg (content_json : Json) : String :=
  "Something went wrong retrieving a response from GPT. " ++
    ("The parsed JSON " ++ pyRepr content_json ++ " ") ++
    "does not contain the `genres` key."

/-- `OpenAIHandler.get_response`, statement for statement:

* `client = OpenAIHandler.get_client()` — may raise the secrets
  provider's configuration error; threads `_client_instance`;
* `response = client.chat.completions.create(...)` — one call to
  `remote` on `requestOf PROMPT sanitized_input`;
* `found_content = response.choices[0].message.content` — an
  `IndexError` when the reply has no choices;
* `if not found_content` — falsy for `None` and for the empty string;
* `json.loads` under a bare `except:` — every parse failure becomes the
  malformed-reply `ValueError`;
* `if not "genres" in content_json` — Python `in`, which may itself
  raise a `TypeError` (uncaught) on a non-container reply;
* `return content_json['genres']` — Python subscript, unvalidated.

Returns the result paired with the final `_client_instance` state. -/
def get_response (secret_key : Except PyError String) (PROMPT : String)
    (remote : Request → Response)
    (json_loads : String → Except PyError Json)
    (inst : Option OpenAI) (sanitized_input : String) :
    Except PyError Json × Option OpenAI :=
  match get_client secret_key inst with
  | (.error e, inst') => (.error e, inst')
  | (.ok _client, inst') =>
    let response := remote (requestOf PROMPT sanitized_input)
    match response.choices with
    | [] => (.error (.indexError "list index out of range"), inst')
    | choice0 :: _ =>
      match choice0.message.content with
      | none => (.error (.valueError emptyReplyMsg), inst')
      | some found_content =>
        if found_content = "" then
          (.error (.valueError emptyReplyMsg), inst')
        else
          match json_loads found_content with
          | .error _ => (.error (.valueError malformedReplyMsg), inst')
          | .ok content_json =>
            match pyContains "genres" content_json with
            | .error e => (.error e, inst')
            | .ok false =>
                (.error (.valueError (missingFieldMsg content_json)), inst')
            | .ok true =>
              match pySubscript content_json "genres" with
              | .error e => (.error e, inst')
              | .ok v => (.ok v, inst')

end OpenAIHandler

/-- The four documented error kinds of the spec's taxonomy, as they
surface from the adapter: the three `ValueError`s raised by
`get_response` and the secrets provider's configuration error. -/
def isDocumentedError (e : PyError) : Prop :=
  e = .valueError OpenAIHandler.emptyReplyMsg ∨
  e = .valueError OpenAIHandler.malformedReplyMsg ∨
  (∃ j, e = .valueError (OpenAIHandler.missingFieldMsg j)) ∨
  (∃ m, e = .configurationError m)

/-! ## Helper lemmas -/

theorem lookupKey_of_any (kvs : List (String × Json)) (k : String)
    (h : kvs.any (fun kv => kv.1 = k) = true) :
    ∃ v, lookupKey kvs k = some v := by
  induction kvs with
  | nil => simp at h
  | cons kv rest ih =>
      by_cases hk : kv.1 = k
      · exact ⟨kv.2, by simp [lookupKey, hk]⟩
      · simp [List.any_cons, hk] at h
        obtain ⟨v, hv⟩ := ih (by simpa using h)
        exact ⟨v, by simp [lookupKey, hk, hv]⟩

theorem any_of_lookupKey (kvs : List (String × Json)) (k : String) (v : Json)
    (h : lookupKey kvs k = some v) :
    kvs.any (fun kv => kv.1 = k) = true := by
  induction kvs with
  | nil => simp [lookupKey] at h
  | cons kv rest ih =>
      by_cases hk : kv.1 = k
      · simp [List.any_cons, hk]
      · simp [lookupKey, hk] at h
        simp [List.any_cons, hk, ih h]

/-! ## Claims -/

/-- **C7** Calling `get_client` twice in sequence returns the same client
handle both times: a successful call leaves the handle memoized, and any
later call returns it unchanged without consulting the secrets provider
or constructing a new handle (even under a different secrets outcome). -/
theorem get_client_idempotent (key₁ key₂ : Except PyError String)
    (inst inst' : Option OpenAI) (c : OpenAI)
    (h : OpenAIHandler.get_client key₁ inst = (.ok c, inst')) :
    inst' = some c ∧
    OpenAIHandler.get_client key₂ inst' = (.ok c, inst') := by
  cases inst with
  | some c₀ =>
      simp [OpenAIHandler.get_client] at h
      obtain ⟨h1, h2⟩ := h
      subst h1; subst h2
      exact ⟨rfl, rfl⟩
  | none =>
      cases key₁ with
      | error e => simp [OpenAIHandler.get_client, OpenAIHandler._initialize_client] at h
      | ok k =>
          simp [OpenAIHandler.get_client, OpenAIHandler._initialize_client] at h
          obtain ⟨h1, h2⟩ := h
          subst h1; subst h2
          exact ⟨rfl, rfl⟩

theorem get_client_idempotent_witness :
    (some (OpenAI.mk "sk") : Option OpenAI) = some ⟨"sk"⟩ ∧
    OpenAIHandler.get_client (.error (.configurationError "key unavailable"))
        (some ⟨"sk"⟩) = (.ok ⟨"sk"⟩, some ⟨"sk"⟩) :=
  get_client_idempotent (.ok "sk") (.error (.configurationError "key unavailable"))
    none (some ⟨"sk"⟩) ⟨"sk"⟩ rfl

/-- **C3** The single outbound request built by `get_response` is
`requestOf PROMPT input`: it carries the fixed model identifier, the
fixed seed 69, the JSON-object response-format hint, and exactly two
messages — the system prompt verbatim (independent of the input) and the
user input; and `get_response` consults the remote service only at that
one request. -/
theorem get_response_request_shape (PROMPT input : String) :
    (OpenAIHandler.requestOf PROMPT input).model = "gpt-3.5-turbo" ∧
    (OpenAIHandler.requestOf PROMPT input).seed = 69 ∧
    (OpenAIHandler.requestOf PROMPT input).response_format = "json_object" ∧
    (OpenAIHandler.requestOf PROMPT input).messages
      = [⟨"system", PROMPT⟩, ⟨"user", input⟩] ∧
    ∀ (secret_key : Except PyError String)
      (json_loads : String → Except PyError Json) (inst : Option OpenAI)
      (remote₁ remote₂ : Request → Response),
      remote₁ (OpenAIHandler.requestOf PROMPT input)
          = remote₂ (OpenAIHandler.requestOf PROMPT input) →
      OpenAIHandler.get_response secret_key PROMPT remote₁ json_loads inst input
        = OpenAIHandler.get_response secret_key PROMPT remote₂ json_loads inst input := by
  refine ⟨rfl, rfl, rfl, rfl, ?_⟩
  intro secret_key json_loads inst remote₁ remote₂ h
  simp only [OpenAIHandler.get_response, h]

theorem get_response_request_shape_witness :
    OpenAIHandler.get_response (.ok "sk") "the fixed prompt"
        (fun _ => ⟨[⟨⟨some "x"⟩⟩]⟩)
        (fun _ => .error (.otherError "JSONDecodeError" "Expecting value"))
        none "happy"
      = OpenAIHandler.get_response (.ok "sk") "the fixed prompt"
        (fun r => if r.seed = 69 then ⟨[⟨⟨some "x"⟩⟩]⟩ else ⟨[]⟩)
        (fun _ => .error (.otherError "JSONDecodeError" "Expecting value"))
        none "happy" :=
  (get_response_request_shape "the fixed prompt" "happy").2.2.2.2
    (.ok "sk") (fun _ => .error (.otherError "JSONDecodeError" "Expecting value"))
    none (fun _ => ⟨[⟨⟨some "x"⟩⟩]⟩)
    (fun r => if r.seed = 69 then ⟨[⟨⟨some "x"⟩⟩]⟩ else ⟨[]⟩) rfl

/-- Helper: the success path of `get_response` — client available, a
first choice with non-empty content that parses to a dict holding
`genres`. -/
theorem gr_success (secret_key : Except PyError String) (PROMPT : String)
    (remote : Request → Response) (json_loads : String → Except PyError Json)
    (inst inst₁ : Option OpenAI) (input : String) (c : OpenAI)
    (ch : Choice) (rest : List Choice) (s : String)
    (kvs : List (String × Json)) (v : Json)
    (h0 : OpenAIHandler.get_client secret_key inst = (.ok c, inst₁))
    (h1 : (remote (OpenAIHandler.requestOf PROMPT input)).choices = ch :: rest)
    (h2 : ch.message.content = some s) (h3 : s ≠ "")
    (h4 : json_loads s = .ok (Json.obj kvs))
    (h5 : lookupKey kvs "genres" = some v) :
    OpenAIHandler.get_response secret_key PROMPT remote json_loads inst input
      = (.ok v, inst₁) := by
  have hany := any_of_lookupKey kvs "genres" v h5
  simp [OpenAIHandler.get_response, h0, h1, h2, h3, h4, pyContains, pySubscript,
    hany, h5]

/-- Helper: with no memoized client and a failing secrets provider,
`get_response` propagates the secrets failure and leaves the client
state unset. -/
theorem gr_config (e : PyError) (PROMPT : String)
    (remote : Request → Response) (json_loads : String → Except PyError Json)
    (input : String) :
    OpenAIHandler.get_response (.error e) PROMPT remote json_loads none input
      = (.error e, none) := by
  simp [OpenAIHandler.get_response, OpenAIHandler.get_client,
    OpenAIHandler._initialize_client]

/-- Helper: a first choice whose content is `None` or the empty string
yields the empty-reply `ValueError`, whatever the JSON parser. -/
theorem gr_empty (secret_key : Except PyError String) (PROMPT : String)
    (remote : Request → Response) (json_loads : String → Except PyError Json)
    (inst inst₁ : Option OpenAI) (input : String) (c : OpenAI)
    (ch : Choice) (rest : List Choice)
    (h0 : OpenAIHandler.get_client secret_key inst = (.ok c, inst₁))
    (h1 : (remote (OpenAIHandler.requestOf PROMPT input)).choices = ch :: rest)
    (h2 : ch.message.content = none ∨ ch.message.content = some "") :
    OpenAIHandler.get_response secret_key PROMPT remote json_loads inst input
      = (.error (.valueError OpenAIHandler.emptyReplyMsg), inst₁) := by
  cases h2 with
  | inl h2 => simp [OpenAIHandler.get_response, h0, h1, h2]
  | inr h2 => simp [OpenAIHandler.get_response, h0, h1, h2]

/-- Helper: non-empty content on which the JSON parser fails yields the
malformed-reply `ValueError`, whatever the parse failure was. -/
theorem gr_malformed (secret_key : Except PyError String) (PROMPT : String)
    (remote : Request → Response) (json_loads : String → Except PyError Json)
    (inst inst₁ : Option OpenAI) (input : String) (c : OpenAI)
    (ch : Choice) (rest : List Choice) (s : String) (e : PyError)
    (h0 : OpenAIHandler.get_client secret_key inst = (.ok c, inst₁))
    (h1 : (remote (OpenAIHandler.requestOf PROMPT input)).choices = ch :: rest)
    (h2 : ch.message.content = some s) (h3 : s ≠ "")
    (h4 : json_loads s = .error e) :
    OpenAIHandler.get_response secret_key PROMPT remote json_loads inst input
      = (.error (.valueError OpenAIHandler.malformedReplyMsg), inst₁) := by
  simp [OpenAIHandler.get_response, h0, h1, h2, h3, h4]

/-- Helper: content parsing to a dict without a `genres` key yields the
missing-field `ValueError` carrying the parsed value in its message. -/
theorem gr_missing (secret_key : Except PyError String) (PROMPT : String)
    (remote : Request → Response) (json_loads : String → Except PyError Json)
    (inst inst₁ : Option OpenAI) (input : String) (c : OpenAI)
    (ch : Choice) (rest : List Choice) (s : String)
    (kvs : List (String × Json))
    (h0 : OpenAIHandler.get_client secret_key inst = (.ok c, inst₁))
    (h1 : (remote (OpenAIHandler.requestOf PROMPT input)).choices = ch :: rest)
    (h2 : ch.message.content = some s) (h3 : s ≠ "")
    (h4 : json_loads s = .ok (Json.obj kvs))
    (h5 : kvs.any (fun kv => kv.1 = "genres") = false) :
    OpenAIHandler.get_response secret_key PROMPT remote json_loads inst input
      = (.error (.valueError (OpenAIHandler.missingFieldMsg (Json.obj kvs))),
          inst₁) := by
  simp [OpenAIHandler.get_response, h0, h1, h2, h3, h4, pyContains, h5]

/-- **C2** When the remote reply's content parses to a JSON object whose
`genres` key holds a list of strings, `get_response` returns exactly
that list of strings (in particular, the five-genre mocked reply of the
spec returns exactly those five genres). -/
theorem get_response_returns_genres (secret_key : Except PyError String)
    (PROMPT : String) (remote : Request → Response)
    (json_loads : String → Except PyError Json)
    (inst inst₁ : Option OpenAI) (input : String) (c : OpenAI)
    (ch : Choice) (rest : List Choice) (s : String)
    (kvs : List (String × Json)) (gs : List String)
    (h0 : OpenAIHandler.get_client secret_key inst = (.ok c, inst₁))
    (h1 : (remote (OpenAIHandler.requestOf PROMPT input)).choices = ch :: rest)
    (h2 : ch.message.content = some s) (h3 : s ≠ "")
    (h4 : json_loads s = .ok (Json.obj kvs))
    (h5 : lookupKey kvs "genres" = some (Json.arr (gs.map Json.str))) :
    OpenAIHandler.get_response secret_key PROMPT remote json_loads inst input
      = (.ok (Json.arr (gs.map Json.str)), inst₁) :=
  gr_success secret_key PROMPT remote json_loads inst inst₁ input c ch rest s
    kvs (Json.arr (gs.map Json.str)) h0 h1 h2 h3 h4 h5

theorem get_response_returns_genres_witness :
    OpenAIHandler.get_response (.ok "sk") "the prompt"
        (fun _ => ⟨[⟨⟨some "\x7b\"genres\": [\"pop\", \"rock\", \"jazz\", \"blues\", \"folk\"]\x7d"⟩⟩]⟩)
        (fun s =>
          if s = "\x7b\"genres\": [\"pop\", \"rock\", \"jazz\", \"blues\", \"folk\"]\x7d" then
            .ok (Json.obj [("genres", Json.arr [.str "pop", .str "rock",
              .str "jazz", .str "blues", .str "folk"])])
          else .error (.otherError "JSONDecodeError" "Expecting value"))
        none "im feeling great"
      = (.ok (Json.arr [.str "pop", .str "rock", .str "jazz", .str "blues",
          .str "folk"]), some ⟨"sk"⟩) := by
  have h := get_response_returns_genres (.ok "sk") "the prompt"
    (fun _ => ⟨[⟨⟨some "\x7b\"genres\": [\"pop\", \"rock\", \"jazz\", \"blues\", \"folk\"]\x7d"⟩⟩]⟩)
    (fun s =>
      if s = "\x7b\"genres\": [\"pop\", \"rock\", \"jazz\", \"blues\", \"folk\"]\x7d" then
        .ok (Json.obj [("genres", Json.arr [.str "pop", .str "rock",
          .str "jazz", .str "blues", .str "folk"])])
      else .error (.otherError "JSONDecodeError" "Expecting value"))
    none (some ⟨"sk"⟩) "im feeling great" ⟨"sk"⟩
    ⟨⟨some "\x7b\"genres\": [\"pop\", \"rock\", \"jazz\", \"blues\", \"folk\"]\x7d"⟩⟩ []
    "\x7b\"genres\": [\"pop\", \"rock\", \"jazz\", \"blues\", \"folk\"]\x7d"
    [("genres", Json.arr [.str "pop", .str "rock", .str "jazz", .str "blues",
      .str "folk"])] ["pop", "rock", "jazz", "blues", "folk"]
    rfl rfl rfl (by decide) rfl rfl
  exact h

/-- **C8** For every parsed JSON reply that is an object containing the
`genres` key, `get_response` returns the value stored under that key
unchanged, whatever it is: no validation of its length (in particular no
length-5 check), its uniqueness, or its normalization is performed. -/
theorem get_response_no_validation (secret_key : Except PyError String)
    (PROMPT : String) (remote : Request → Response)
    (json_loads : String → Except PyError Json)
    (inst inst₁ : Option OpenAI) (input : String) (c : OpenAI)
    (ch : Choice) (rest : List Choice) (s : String)
    (kvs : List (String × Json)) (v : Json)
    (h0 : OpenAIHandler.get_client secret_key inst = (.ok c, inst₁))
    (h1 : (remote (OpenAIHandler.requestOf PROMPT input)).choices = ch :: rest)
    (h2 : ch.message.content = some s) (h3 : s ≠ "")
    (h4 : json_loads s = .ok (Json.obj kvs))
    (h5 : lookupKey kvs "genres" = some v) :
    OpenAIHandler.get_response secret_key PROMPT remote json_loads inst input
      = (.ok v, inst₁) :=
  gr_success secret_key PROMPT remote json_loads inst inst₁ input c ch rest s
    kvs v h0 h1 h2 h3 h4 h5

theorem get_response_no_validation_witness :
    OpenAIHandler.get_response (.ok "sk") "the prompt"
        (fun _ => ⟨[⟨⟨some "\x7b\"genres\": [\"pop\", \"pop\"]\x7d"⟩⟩]⟩)
        (fun s =>
          if s = "\x7b\"genres\": [\"pop\", \"pop\"]\x7d" then
            .ok (Json.obj [("genres", Json.arr [.str "pop", .str "pop"])])
          else .error (.otherError "JSONDecodeError" "Expecting value"))
        none "im sad"
      = (.ok (Json.arr [.str "pop", .str "pop"]), some ⟨"sk"⟩) := by
  have h := get_response_no_validation (.ok "sk") "the prompt"
    (fun _ => ⟨[⟨⟨some "\x7b\"genres\": [\"pop\", \"pop\"]\x7d"⟩⟩]⟩)
    (fun s =>
      if s = "\x7b\"genres\": [\"pop\", \"pop\"]\x7d" then
        .ok (Json.obj [("genres", Json.arr [.str "pop", .str "pop"])])
      else .error (.otherError "JSONDecodeError" "Expecting value"))
    none (some ⟨"sk"⟩) "im sad" ⟨"sk"⟩
    ⟨⟨some "\x7b\"genres\": [\"pop\", \"pop\"]\x7d"⟩⟩ []
    "\x7b\"genres\": [\"pop\", \"pop\"]\x7d"
    [("genres", Json.arr [.str "pop", .str "pop"])]
    (Json.arr [.str "pop", .str "pop"])
    rfl rfl rfl (by decide) rfl rfl
  exact h

/-- **C4** A remote reply whose first choice has empty or absent content
makes `get_response` raise the empty-reply `ValueError` before any JSON
parsing is attempted: the outcome is the same for every JSON parser. -/
theorem get_response_empty_before_parsing (secret_key : Except PyError String)
    (PROMPT : String) (remote : Request → Response)
    (inst inst₁ : Option OpenAI) (input : String) (c : OpenAI)
    (ch : Choice) (rest : List Choice)
    (h0 : OpenAIHandler.get_client secret_key inst = (.ok c, inst₁))
    (h1 : (remote (OpenAIHandler.requestOf PROMPT input)).choices = ch :: rest)
    (h2 : ch.message.content = none ∨ ch.message.content = some "") :
    ∀ json_loads : String → Except PyError Json,
      OpenAIHandler.get_response secret_key PROMPT remote json_loads inst input
        = (.error (.valueError OpenAIHandler.emptyReplyMsg), inst₁) :=
  fun json_loads =>
    gr_empty secret_key PROMPT remote json_loads inst inst₁ input c ch rest
      h0 h1 h2

theorem get_response_empty_before_parsing_witness :
    OpenAIHandler.get_response (.ok "sk") "the prompt"
        (fun _ => ⟨[⟨⟨none⟩⟩]⟩)
        (fun _ => .ok (Json.obj [("genres", Json.arr [.str "pop"])]))
        none "im sad"
      = (.error (.valueError OpenAIHandler.emptyReplyMsg), some ⟨"sk"⟩) :=
  get_response_empty_before_parsing (.ok "sk") "the prompt"
    (fun _ => ⟨[⟨⟨none⟩⟩]⟩) none (some ⟨"sk"⟩) "im sad" ⟨"sk"⟩ ⟨⟨none⟩⟩ []
    rfl rfl (Or.inl rfl)
    (fun _ => .ok (Json.obj [("genres", Json.arr [.str "pop"])]))

/-- **C10** The emptiness check on the reply content is a falsiness
test: a reply whose content is absent (`None`) and a reply whose content
is the empty string are treated identically, both raising the
empty-reply `ValueError`. -/
theorem get_response_none_eq_empty_string (secret_key : Except PyError String)
    (PROMPT : String) (remote₁ remote₂ : Request → Response)
    (json_loads : String → Except PyError Json)
    (inst inst₁ : Option OpenAI) (input : String) (c : OpenAI)
    (ch₁ ch₂ : Choice) (rest₁ rest₂ : List Choice)
    (h0 : OpenAIHandler.get_client secret_key inst = (.ok c, inst₁))
    (h1 : (remote₁ (OpenAIHandler.requestOf PROMPT input)).choices = ch₁ :: rest₁)
    (h2 : ch₁.message.content = none)
    (h3 : (remote₂ (OpenAIHandler.requestOf PROMPT input)).choices = ch₂ :: rest₂)
    (h4 : ch₂.message.content = some "") :
    OpenAIHandler.get_response secret_key PROMPT remote₁ json_loads inst input
      = OpenAIHandler.get_response secret_key PROMPT remote₂ json_loads inst input
    ∧ OpenAIHandler.get_response secret_key PROMPT remote₁ json_loads inst input
      = (.error (.valueError OpenAIHandler.emptyReplyMsg), inst₁) := by
  have e₁ := gr_empty secret_key PROMPT remote₁ json_loads inst inst₁ input c
    ch₁ rest₁ h0 h1 (Or.inl h2)
  have e₂ := gr_empty secret_key PROMPT remote₂ json_loads inst inst₁ input c
    ch₂ rest₂ h0 h3 (Or.inr h4)
  exact ⟨e₁.trans e₂.symm, e₁⟩

theorem get_response_none_eq_empty_string_witness :
    (OpenAIHandler.get_response (.ok "sk") "the prompt"
        (fun _ => ⟨[⟨⟨none⟩⟩]⟩)
        (fun _ => .error (.otherError "JSONDecodeError" "Expecting value"))
        none "im sad"
      = OpenAIHandler.get_response (.ok "sk") "the prompt"
        (fun _ => ⟨[⟨⟨some ""⟩⟩]⟩)
        (fun _ => .error (.otherError "JSONDecodeError" "Expecting value"))
        none "im sad")
    ∧ OpenAIHandler.get_response (.ok "sk") "the prompt"
        (fun _ => ⟨[⟨⟨none⟩⟩]⟩)
        (fun _ => .error (.otherError "JSONDecodeError" "Expecting value"))
        none "im sad"
      = (.error (.valueError OpenAIHandler.emptyReplyMsg), some ⟨"sk"⟩) :=
  get_response_none_eq_empty_string (.ok "sk") "the prompt"
    (fun _ => ⟨[⟨⟨none⟩⟩]⟩) (fun _ => ⟨[⟨⟨some ""⟩⟩]⟩)
    (fun _ => .error (.otherError "JSONDecodeError" "Expecting value"))
    none (some ⟨"sk"⟩) "im sad" ⟨"sk"⟩ ⟨⟨none⟩⟩ ⟨⟨some ""⟩⟩ [] []
    rfl rfl rfl rfl rfl

/-- **C5** A remote reply whose non-empty textual content fails to parse
as JSON makes `get_response` raise the malformed-reply `ValueError`. -/
theorem get_response_malformed (secret_key : Except PyError String)
    (PROMPT : String) (remote : Request → Response)
    (json_loads : String → Except PyError Json)
    (inst inst₁ : Option OpenAI) (input : String) (c : OpenAI)
    (ch : Choice) (rest : List Choice) (s : String) (e : PyError)
    (h0 : OpenAIHandler.get_client secret_key inst = (.ok c, inst₁))
    (h1 : (remote (OpenAIHandler.requestOf PROMPT input)).choices = ch :: rest)
    (h2 : ch.message.content = some s) (h3 : s ≠ "")
    (h4 : json_loads s = .error e) :
    OpenAIHandler.get_response secret_key PROMPT remote json_loads inst input
      = (.error (.valueError OpenAIHandler.malformedReplyMsg), inst₁) :=
  gr_malformed secret_key PROMPT remote json_loads inst inst₁ input c ch rest
    s e h0 h1 h2 h3 h4

theorem get_response_malformed_witness :
    OpenAIHandler.get_response (.ok "sk") "the prompt"
        (fun _ => ⟨[⟨⟨some "not json"⟩⟩]⟩)
        (fun s =>
          if s = "not json" then
            .error (.otherError "JSONDecodeError" "Expecting value: line 1 column 1 (char 0)")
          else .ok Json.null)
        none "im sad"
      = (.error (.valueError OpenAIHandler.malformedReplyMsg), some ⟨"sk"⟩) :=
  get_response_malformed (.ok "sk") "the prompt"
    (fun _ => ⟨[⟨⟨some "not json"⟩⟩]⟩)
    (fun s =>
      if s = "not json" then
        .error (.otherError "JSONDecodeError" "Expecting value: line 1 column 1 (char 0)")
      else .ok Json.null)
    none (some ⟨"sk"⟩) "im sad" ⟨"sk"⟩ ⟨⟨some "not json"⟩⟩ [] "not json"
    (.otherError "JSONDecodeError" "Expecting value: line 1 column 1 (char 0)")
    rfl rfl rfl (by decide) rfl

/-- **C9** The JSON-parsing guard is a bare `except:`: every parse
failure, whatever its exception class and detail, is converted to the
same malformed-reply `ValueError` — two parsers failing with entirely
different exceptions produce identical outcomes, the original
exception's type and detail being discarded. -/
theorem get_response_bare_except (secret_key : Except PyError String)
    (PROMPT : String) (remote : Request → Response)
    (json_loads₁ json_loads₂ : String → Except PyError Json)
    (inst inst₁ : Option OpenAI) (input : String) (c : OpenAI)
    (ch : Choice) (rest : List Choice) (s : String) (e₁ e₂ : PyError)
    (h0 : OpenAIHandler.get_client secret_key inst = (.ok c, inst₁))
    (h1 : (remote (OpenAIHandler.requestOf PROMPT input)).choices = ch :: rest)
    (h2 : ch.message.content = some s) (h3 : s ≠ "")
    (h4 : json_loads₁ s = .error e₁) (h5 : json_loads₂ s = .error e₂) :
    OpenAIHandler.get_response secret_key PROMPT remote json_loads₁ inst input
      = (.error (.valueError OpenAIHandler.malformedReplyMsg), inst₁)
    ∧ OpenAIHandler.get_response secret_key PROMPT remote json_loads₂ inst input
      = OpenAIHandler.get_response secret_key PROMPT remote json_loads₁ inst input := by
  have m₁ := gr_malformed secret_key PROMPT remote json_loads₁ inst inst₁
    input c ch rest s e₁ h0 h1 h2 h3 h4
  have m₂ := gr_malformed secret_key PROMPT remote json_loads₂ inst inst₁
    input c ch rest s e₂ h0 h1 h2 h3 h5
  exact ⟨m₁, m₂.trans m₁.symm⟩

theorem get_response_bare_except_witness :
    (OpenAIHandler.get_response (.ok "sk") "the prompt"
        (fun _ => ⟨[⟨⟨some "deep"⟩⟩]⟩)
        (fun _ => .error (.otherError "RecursionError"
          "maximum recursion depth exceeded"))
        none "im sad"
      = (.error (.valueError OpenAIHandler.malformedReplyMsg), some ⟨"sk"⟩))
    ∧ OpenAIHandler.get_response (.ok "sk") "the prompt"
        (fun _ => ⟨[⟨⟨some "deep"⟩⟩]⟩)
        (fun _ => .error (.typeError
          "the JSON object must be str, bytes or bytearray"))
        none "im sad"
      = OpenAIHandler.get_response (.ok "sk") "the prompt"
        (fun _ => ⟨[⟨⟨some "deep"⟩⟩]⟩)
        (fun _ => .error (.otherError "RecursionError"
          "maximum recursion depth exceeded"))
        none "im sad" :=
  get_response_bare_except (.ok "sk") "the prompt"
    (fun _ => ⟨[⟨⟨some "deep"⟩⟩]⟩)
    (fun _ => .error (.otherError "RecursionError"
      "maximum recursion depth exceeded"))
    (fun _ => .error (.typeError
      "the JSON object must be str, bytes or bytearray"))
    none (some ⟨"sk"⟩) "im sad" ⟨"sk"⟩ ⟨⟨some "deep"⟩⟩ [] "deep"
    (.otherError "RecursionError" "maximum recursion depth exceeded")
    (.typeError "the JSON object must be str, bytes or bytearray")
    rfl rfl rfl (by decide) rfl rfl

/-- **C6** A remote reply parsing to a JSON object without a `genres`
key makes `get_response` raise the missing-field `ValueError`, and the
error's message contains the parsed JSON object (its Python rendering)
for diagnostics. -/
theorem get_response_missing_field (secret_key : Except PyError String)
    (PROMPT : String) (remote : Request → Response)
    (json_loads : String → Except PyError Json)
    (inst inst₁ : Option OpenAI) (input : String) (c : OpenAI)
    (ch : Choice) (rest : List Choice) (s : String)
    (kvs : List (String × Json))
    (h0 : OpenAIHandler.get_client secret_key inst = (.ok c, inst₁))
    (h1 : (remote (OpenAIHandler.requestOf PROMPT input)).choices = ch :: rest)
    (h2 : ch.message.content = some s) (h3 : s ≠ "")
    (h4 : json_loads s = .ok (Json.obj kvs))
    (h5 : kvs.any (fun kv => kv.1 = "genres") = false) :
    OpenAIHandler.get_response secret_key PROMPT remote json_loads inst input
      = (.error (.valueError (OpenAIHandler.missingFieldMsg (Json.obj kvs))),
          inst₁)
    ∧ ∃ pre post, OpenAIHandler.missingFieldMsg (Json.obj kvs)
        = pre ++ (pyRepr (Json.obj kvs) ++ post) := by
  refine ⟨gr_missing secret_key PROMPT remote json_loads inst inst₁ input c
    ch rest s kvs h0 h1 h2 h3 h4 h5,
    "Something went wrong retrieving a response from GPT. The parsed JSON ",
    " does not contain the `genres` key.", ?_⟩
  simp only [OpenAIHandler.missingFieldMsg, String.append_assoc]
  rfl

theorem get_response_missing_field_witness :
    (OpenAIHandler.get_response (.ok "sk") "the prompt"
        (fun _ => ⟨[⟨⟨some "\x7b\"mood\":\"happy\"\x7d"⟩⟩]⟩)
        (fun s => if s = "\x7b\"mood\":\"happy\"\x7d" then
            .ok (Json.obj [("mood", Json.str "happy")])
          else .error (.otherError "JSONDecodeError" "Expecting value"))
        none "im happy"
      = (.error (.valueError (OpenAIHandler.missingFieldMsg
          (Json.obj [("mood", Json.str "happy")]))), some ⟨"sk"⟩))
    ∧ ∃ pre post, OpenAIHandler.missingFieldMsg
        (Json.obj [("mood", Json.str "happy")])
        = pre ++ (pyRepr (Json.obj [("mood", Json.str "happy")]) ++ post) :=
  get_response_missing_field (.ok "sk") "the prompt"
    (fun _ => ⟨[⟨⟨some "\x7b\"mood\":\"happy\"\x7d"⟩⟩]⟩)
    (fun s => if s = "\x7b\"mood\":\"happy\"\x7d" then
        .ok (Json.obj [("mood", Json.str "happy")])
      else .error (.otherError "JSONDecodeError" "Expecting value"))
    none (some ⟨"sk"⟩) "im happy" ⟨"sk"⟩
    ⟨⟨some "\x7b\"mood\":\"happy\"\x7d"⟩⟩ [] "\x7b\"mood\":\"happy\"\x7d"
    [("mood", Json.str "happy")]
    rfl rfl rfl (by decide) rfl rfl

/-- Helper: once the client is available, under the provisos that the
reply has a choice and that parsed content is always a dict, the
adapter's outcome is a returned value or a documented error. -/
theorem gr_taxonomy_ok_client (secret_key : Except PyError String)
    (PROMPT : String) (remote : Request → Response)
    (json_loads : String → Except PyError Json)
    (inst inst₁ : Option OpenAI) (input : String) (c : OpenAI)
    (h0 : OpenAIHandler.get_client secret_key inst = (.ok c, inst₁))
    (hch : (remote (OpenAIHandler.requestOf PROMPT input)).choices ≠ [])
    (hobj : ∀ s j, json_loads s = .ok j → ∃ kvs, j = Json.obj kvs) :
    (∃ v, OpenAIHandler.get_response secret_key PROMPT remote json_loads inst
        input = (.ok v, inst₁)) ∨
    (∃ e, OpenAIHandler.get_response secret_key PROMPT remote json_loads inst
        input = (.error e, inst₁) ∧ isDocumentedError e) := by
  rcases hc : (remote (OpenAIHandler.requestOf PROMPT input)).choices with
    _ | ⟨ch, rest⟩
  · exact absurd hc hch
  · rcases hcont : ch.message.content with _ | s
    · exact Or.inr ⟨_, gr_empty secret_key PROMPT remote json_loads inst inst₁
        input c ch rest h0 hc (Or.inl hcont), Or.inl rfl⟩
    · by_cases hs : s = ""
      · subst hs
        exact Or.inr ⟨_, gr_empty secret_key PROMPT remote json_loads inst
          inst₁ input c ch rest h0 hc (Or.inr hcont), Or.inl rfl⟩
      · rcases hjl : json_loads s with e | j
        · exact Or.inr ⟨_, gr_malformed secret_key PROMPT remote json_loads
            inst inst₁ input c ch rest s e h0 hc hcont hs hjl,
            Or.inr (Or.inl rfl)⟩
        · obtain ⟨kvs, rfl⟩ := hobj s j hjl
          cases hany : kvs.any (fun kv => kv.1 = "genres") with
          | true =>
              obtain ⟨v, hv⟩ := lookupKey_of_any kvs "genres" hany
              exact Or.inl ⟨v, gr_success secret_key PROMPT remote json_loads
                inst inst₁ input c ch rest s kvs v h0 hc hcont hs hjl hv⟩
          | false =>
              exact Or.inr ⟨_, gr_missing secret_key PROMPT remote json_loads
                inst inst₁ input c ch rest s kvs h0 hc hcont hs hjl hany,
                Or.inr (Or.inr (Or.inl ⟨_, rfl⟩))⟩

/-- **C1** (amended) For every sanitized input — provided the secrets
provider either succeeds or fails with its configuration error, the
remote reply has at least one choice, and any successfully parsed reply
content is a JSON object — `get_response` either returns the
(unvalidated) value under the `genres` key or raises exactly one of the
four documented error kinds.  Without the last two provisos a generic
`IndexError` or `TypeError` can escape (see the counterexample). -/
theorem get_response_error_taxonomy (secret_key : Except PyError String)
    (PROMPT : String) (remote : Request → Response)
    (json_loads : String → Except PyError Json)
    (inst : Option OpenAI) (input : String)
    (hkey : (∃ k, secret_key = Except.ok k) ∨
      ∃ m, secret_key = Except.error (.configurationError m))
    (hch : (remote (OpenAIHandler.requestOf PROMPT input)).choices ≠ [])
    (hobj : ∀ s j, json_loads s = .ok j → ∃ kvs, j = Json.obj kvs) :
    (∃ v inst₁,
      OpenAIHandler.get_response secret_key PROMPT remote json_loads inst input
        = (.ok v, inst₁)) ∨
    (∃ e inst₁,
      OpenAIHandler.get_response secret_key PROMPT remote json_loads inst input
        = (.error e, inst₁) ∧ isDocumentedError e) := by
  cases inst with
  | some c =>
      rcases gr_taxonomy_ok_client secret_key PROMPT remote json_loads
        (some c) (some c) input c rfl hch hobj with ⟨v, hv⟩ | ⟨e, he, hd⟩
      · exact Or.inl ⟨v, some c, hv⟩
      · exact Or.inr ⟨e, some c, he, hd⟩
  | none =>
      rcases hkey with ⟨k, rfl⟩ | ⟨m, rfl⟩
      · rcases gr_taxonomy_ok_client (Except.ok k) PROMPT remote json_loads
          none (some ⟨k⟩) input ⟨k⟩ rfl hch hobj with ⟨v, hv⟩ | ⟨e, he, hd⟩
        · exact Or.inl ⟨v, some ⟨k⟩, hv⟩
        · exact Or.inr ⟨e, some ⟨k⟩, he, hd⟩
      · exact Or.inr ⟨.configurationError m, none,
          gr_config (.configurationError m) PROMPT remote json_loads input,
          Or.inr (Or.inr (Or.inr ⟨m, rfl⟩))⟩

theorem get_response_error_taxonomy_witness :
    (∃ v inst₁,
      OpenAIHandler.get_response (.ok "sk") "the prompt"
          (fun _ => ⟨[⟨⟨none⟩⟩]⟩)
          (fun _ => .error (.otherError "JSONDecodeError" "Expecting value"))
          none "im sad"
        = (.ok v, inst₁)) ∨
    (∃ e inst₁,
      OpenAIHandler.get_response (.ok "sk") "the prompt"
          (fun _ => ⟨[⟨⟨none⟩⟩]⟩)
          (fun _ => .error (.otherError "JSONDecodeError" "Expecting value"))
          none "im sad"
        = (.error e, inst₁) ∧ isDocumentedError e) :=
  get_response_error_taxonomy (.ok "sk") "the prompt"
    (fun _ => ⟨[⟨⟨none⟩⟩]⟩)
    (fun _ => .error (.otherError "JSONDecodeError" "Expecting value"))
    none "im sad" (Or.inl ⟨"sk", rfl⟩) (by simp)
    (fun s j h => Except.noConfusion h)

/-- **C1** counterexample: with the client available and a remote reply
whose content is the valid JSON text `5`, the claim as stated fails —
the Python membership test `"genres" in 5` raises a `TypeError`, which
is none of the four documented error kinds, so an unlabeled generic
failure escapes `get_response`. -/
theorem get_response_taxonomy_counterexample :
    (OpenAIHandler.get_response (.ok "sk") "the prompt"
        (fun _ => ⟨[⟨⟨some "5"⟩⟩]⟩)
        (fun s => if s = "5" then .ok (Json.num 5)
          else .error (.otherError "JSONDecodeError" "Expecting value"))
        none "im sad").1
      = .error (.typeError "argument of type \x27int\x27 is not iterable")
    ∧ ¬ isDocumentedError
        (.typeError "argument of type \x27int\x27 is not iterable") := by
  constructor
  · rfl
  · rintro (h | h | ⟨j, h⟩ | ⟨m, h⟩) <;> exact PyError.noConfusion h
